import Mathlib

/-!
Shallow embedding of the Savings Ledger Aggregation Engine of the
FinancePlayground repository.

The embedded code comes from:
* `src/Process.py`, class `AnalyticsGenerator`, method
  `calculate_savings_metrics` (lines 436-533), and class
  `SchemaValidator`, method `validate_savings` (lines 115-149);
* `src/dashboard/charts.py`, functions
  `create_savings_categories_over_time` (balance loop, lines 478-501)
  and `create_category_savings_breakdown` (balance loop, lines 619-630).

Modelling conventions:
* a polars DataFrame of savings transactions is a `List SavingsTx`;
  the `Month` column (string `"YYYY-MM"`, added upstream from `Date` by
  `strftime("%Y-%m")`) is carried directly as the `month` field, since
  the engine only ever reads `Month`, `Category`, `CategoryType` and
  `Value` (`Date`/`Description` are unused by the aggregation logic);
* monetary values (python floats) are modelled as `Rat`;
* `sorted(df["Month"].unique().to_list())` is `insertionSort` over
  `dedup`; polars `Series.sum` on an empty selection returns `0`/`None`
  and the `or 0.0` of the source normalizes `None` to `0.0`, so it is the
  plain `List.sum` here;
* a result DataFrame is a structure carrying its column names and its
  rows, so that schema-shape claims are expressible.
-/

structure SavingsTx where
  month : String
  category : String
  categoryType : String
  value : Rat
deriving DecidableEq, Repr

structure MetricsRow where
  Month : String
  TotalSavings : Rat
  TotalAllocated : Rat
  TotalSpent : Rat
deriving DecidableEq, Repr

structure MetricsFrame where
  cols : List String
  rows : List MetricsRow
deriving DecidableEq, Repr

/-- The column schema of the savings-metrics frame: used both by the
empty-input branch (the schema-only `pl.DataFrame`, Process.py 448-455) and,
implicitly through the dict keys of the appended rows, by the non-empty
branch (`pl.DataFrame(metrics)`, Process.py 533). -/
def metricsSchemaCols : List String :=
  ["Month", "TotalSavings", "TotalAllocated", "TotalSpent"]

/-- Process.py 464-469: the `AllocationType` column.
`pl.when(CategoryType == "Accantonamento").then("Allocation").otherwise("Savings")`.
(The column is added to `df_processed` but never read again by the metric
filters below, which compare `CategoryType` directly.) -/
def allocationTypeOf (categoryType : String) : String :=
  if categoryType = "Accantonamento" then "Allocation" else "Savings"

/-- Process.py 472: `all_months = sorted(df_processed["Month"].unique().to_list())`. -/
def allMonths (df : List SavingsTx) : List String :=
  List.insertionSort (· ≤ ·) (df.map (·.month)).dedup

/-- Process.py 482: `month_data = df_processed.filter(pl.col("Month") == month)`. -/
def monthData (df : List SavingsTx) (month : String) : List SavingsTx :=
  df.filter (fun t => t.month == month)

/-- Process.py 484-490: positive `Risparmio` values of the month, summed. -/
def monthSavings (df : List SavingsTx) (month : String) : Rat :=
  (((monthData df month).filter
      (fun t => t.categoryType == "Risparmio" && decide (0 < t.value))).map
    (·.value)).sum

/-- Process.py 493-499: positive `Accantonamento` values of the month, summed. -/
def monthAllocated (df : List SavingsTx) (month : String) : Rat :=
  (((monthData df month).filter
      (fun t => t.categoryType == "Accantonamento" && decide (0 < t.value))).map
    (·.value)).sum

/-- Process.py 501-507: absolute value of the sum of negative
`Accantonamento` values of the month. -/
def monthAllocatedWithdrawals (df : List SavingsTx) (month : String) : Rat :=
  |(((monthData df month).filter
      (fun t => t.categoryType == "Accantonamento" && decide (t.value < 0))).map
    (·.value)).sum|

/-- Process.py 514-520: absolute value of the sum of negative values of the
month whose `CategoryType` is not `Accantonamento`. -/
def monthSpent (df : List SavingsTx) (month : String) : Rat :=
  |(((monthData df month).filter
      (fun t => !(t.categoryType == "Accantonamento") && decide (t.value < 0))).map
    (·.value)).sum|

/-- Process.py 480-531: the per-month loop advancing the three running
totals (`total_savings`, `total_allocated`, `total_spent`) and appending
one metrics row per month. -/
def metricsLoop (df : List SavingsTx) :
    List String → Rat → Rat → Rat → List MetricsRow
  | [], _, _, _ => []
  | month :: rest, totalSavings, totalAllocated, totalSpent =>
    let totalSavings' := totalSavings + monthSavings df month
    let totalAllocated' :=
      totalAllocated + monthAllocated df month - monthAllocatedWithdrawals df month
    let totalSpent' := totalSpent + monthSpent df month
    ⟨month, totalSavings', totalAllocated', totalSpent'⟩ ::
      metricsLoop df rest totalSavings' totalAllocated' totalSpent'

/-- Process.py 436-533: `AnalyticsGenerator.calculate_savings_metrics`.
Empty input returns the empty frame carrying the metrics schema; otherwise
the loop runs over the sorted unique months with all totals starting at 0. -/
def calculate_savings_metrics (df_savings : List SavingsTx) : MetricsFrame :=
  if df_savings.isEmpty then
    ⟨metricsSchemaCols, []⟩
  else
    ⟨metricsSchemaCols, metricsLoop df_savings (allMonths df_savings) 0 0 0⟩

/-- The concrete four-transaction scenario of the spec (§8): Jan and Feb,
`Accantonamento` = Allocation tag, `Risparmio` = Savings tag, `Altro`
standing for an `Other`-type tag. -/
def scenarioLog : List SavingsTx :=
  [⟨"2024-01", "Vacation", "Accantonamento", 100⟩,
   ⟨"2024-01", "Groceries", "Altro", -40⟩,
   ⟨"2024-02", "Vacation", "Accantonamento", -30⟩,
   ⟨"2024-02", "Vacation", "Risparmio", 20⟩]

/-! ### Chart-side balance computations, from `src/dashboard/charts.py` -/

/-- charts.py 441/562: `df_savings.filter(pl.col("CategoryType") == "Risparmio")`. -/
def risparmioData (df_savings : List SavingsTx) : List SavingsTx :=
  df_savings.filter (fun t => t.categoryType == "Risparmio")

/-- charts.py 469: `months = sorted(df_risparmio["Month"].unique().to_list())`. -/
def chartMonths (df_savings : List SavingsTx) : List String :=
  List.insertionSort (· ≤ ·) ((risparmioData df_savings).map (·.month)).dedup

/-- charts.py 470: `categories = sorted(df_risparmio["Category"].unique().to_list())`. -/
def chartCategories (df_savings : List SavingsTx) : List String :=
  List.insertionSort (· ≤ ·) ((risparmioData df_savings).map (·.category)).dedup

/-- charts.py 486-491: the update of `category_balances` for one month; the
dict from category to balance is modelled as a function, keys being the members of
`cats`.  The net change of a category is added only when that category has
rows in the month (`if len(cat_data) > 0`). -/
def updateBalances (dfR : List SavingsTx) (cats : List String) (month : String)
    (bal : String → Rat) : String → Rat :=
  fun c =>
    if cats.contains c then
      let catData := (dfR.filter (fun t => t.month == month)).filter
        (fun t => t.category == c)
      if catData.isEmpty then bal c else bal c + (catData.map (·.value)).sum
    else bal c

/-- charts.py 482-494: the month loop of `create_savings_categories_over_time`,
storing at every month a snapshot (`category_balances.copy()`) of the
running balances. -/
def monthlyBalances (dfR : List SavingsTx) (cats : List String) :
    List String → (String → Rat) → List (String × (String → Rat))
  | [], _ => []
  | month :: rest, bal =>
    let bal' := updateBalances dfR cats month bal
    (month, bal') :: monthlyBalances dfR cats rest bal'

/-- charts.py 478-494: `monthly_balances` of
`create_savings_categories_over_time`, starting from the dict holding a
zero balance for every charted category. -/
def savingsOverTimeBalances (df_savings : List SavingsTx) :
    List (String × (String → Rat)) :=
  monthlyBalances (risparmioData df_savings) (chartCategories df_savings)
    (chartMonths df_savings) (fun _ => 0)

/-- charts.py 594-630: the balance `create_category_savings_breakdown`
computes for one category as of `end_month`: transactions of the
`Risparmio` frame whose month is among the `relevant_months`
(`month <= end_month`), summed, starting from `0.0` and added only when
the category has matching rows. -/
def breakdownCategoryBalance (df_savings : List SavingsTx)
    (end_month c : String) : Rat :=
  let dfR := risparmioData df_savings
  let relevant_months :=
    (List.insertionSort (· ≤ ·) (dfR.map (·.month)).dedup).filter
      (fun m => decide (m ≤ end_month))
  let category_data := dfR.filter
    (fun t => relevant_months.contains t.month && t.category == c)
  if category_data.isEmpty then 0 else (category_data.map (·.value)).sum

/-! ### Spec-side (refinement) definitions

These two definitions follow the words of the specification, not the
code; the refinement theorems below compare the computations of the code with
them. -/

/-- Spec §8 "Prefix-sum correctness" / §4.3: the running balance of the
`(category, Risparmio)` key at month `m` is the sum of the transaction
values of that key over all months `≤ m`. -/
def specRunningBalance (df_savings : List SavingsTx) (c m : String) : Rat :=
  ((df_savings.filter (fun t =>
      t.categoryType == "Risparmio" && t.category == c && decide (t.month ≤ m))).map
    (·.value)).sum

/-- Spec §3 / §4.4 rule 1: `total_saved` at month `m` is the sum over all
months `m' ≤ m` of the positive-valued Savings-type transaction values. -/
def specTotalSavedThrough (df_savings : List SavingsTx) (m : String) : Rat :=
  ((df_savings.filter (fun t =>
      decide (t.month ≤ m) && t.categoryType == "Risparmio" && decide (0 < t.value))).map
    (·.value)).sum

/-! ### Schema validation, from `src/Process.py` (`SchemaValidator`) -/

/-- A validated savings record (`SavingsRecord` pydantic model,
Process.py 23-40): `Date` is a datetime (modelled as a day index),
`Description`/`Category`/`CategoryType` are strings, `Value` a float. -/
structure SavingsRecordV where
  Date : Nat
  Description : String
  Category : String
  CategoryType : String
  Value : Rat
deriving DecidableEq, Repr

/-- A raw savings row before validation: each cell may be null (`none`).
`Value` is a numeric cell or null (after the upstream polars pipeline the
`Value` column holds numbers or nulls). -/
structure RawSavingsRow where
  Date : Option Nat
  Description : Option String
  Category : Option String
  CategoryType : Option String
  Value : Option Rat
deriving DecidableEq, Repr

/-- A validated savings DataFrame together with its column names:
`pl.DataFrame(validated_rows)` carries the five record columns,
`pl.DataFrame()` carries none. -/
structure SavingsFrame where
  cols : List String
  rows : List SavingsRecordV
deriving DecidableEq, Repr

/-- Column order of `pl.DataFrame(validated_rows)`: the pydantic field
order of `SavingsRecord` (base-class fields `Date`, `Description`,
`Category`, `Value`, then the subclass field `CategoryType`). -/
def savingsSchemaCols : List String :=
  ["Date", "Description", "Category", "Value", "CategoryType"]

/-- Process.py 139: `float(row["Value"])`.  A null cell makes `float`
raise a `TypeError`; this call sits outside the scope of the
`except pydantic.ValidationError` handler, so the error propagates. -/
def pyFloat : Option Rat → Except String Rat
  | some v => Except.ok v
  | none => Except.error "TypeError"

/-- Process.py 133-139: construction of the pydantic `SavingsRecord` from
a row whose `Value` has already been converted.  Any null among the
remaining required fields makes pydantic raise a `ValidationError`
(`none` here). -/
def buildSavingsRecord (r : RawSavingsRow) (v : Rat) : Option SavingsRecordV :=
  match r.Date, r.Description, r.Category, r.CategoryType with
  | some d, some desc, some c, some ct => some ⟨d, desc, c, ct, v⟩
  | _, _, _, _ => none

/-- Process.py 130-143: the row loop of `validate_savings`, accumulating
`validated_rows` and `errors` in order.  The error text stands for the
formatted per-row message of the source. -/
def validateSavingsLoop : List RawSavingsRow → List SavingsRecordV →
    List String → Except String (List SavingsRecordV × List String)
  | [], validated_rows, errors => Except.ok (validated_rows, errors)
  | row :: rest, validated_rows, errors =>
    match pyFloat row.Value with
    | Except.error e => Except.error e
    | Except.ok v =>
      match buildSavingsRecord row v with
      | some record => validateSavingsLoop rest (validated_rows ++ [record]) errors
      | none => validateSavingsLoop rest validated_rows
          (errors ++ ["Row validation error"])

/-- Process.py 115-149: `SchemaValidator.validate_savings`.  When no row
validated, the result is the fully empty `pl.DataFrame()` (no columns);
otherwise `pl.DataFrame(validated_rows)` with the record columns. -/
def validate_savings (df : List RawSavingsRow) :
    Except String (SavingsFrame × List String) :=
  match validateSavingsLoop df [] [] with
  | Except.error e => Except.error e
  | Except.ok (validated_rows, errors) =>
    if validated_rows.isEmpty then Except.ok (⟨[], []⟩, errors)
    else Except.ok (⟨savingsSchemaCols, validated_rows⟩, errors)

/-- Declarative view used to state what `validate_savings` does on inputs
whose `Value` cells are all non-null: a row passes pydantic validation
iff none of its remaining required cells is null. -/
def pydanticValid (r : RawSavingsRow) : Bool :=
  r.Date.isSome && r.Description.isSome && r.Category.isSome &&
    r.CategoryType.isSome

/-- Declarative view of one row of `validate_savings`: the record it
contributes when it passes, `none` when it fails. -/
def rowRecord (r : RawSavingsRow) : Option SavingsRecordV :=
  match r.Value with
  | some v => buildSavingsRecord r v
  | none => none

/-! ### Helper lemmas about the sorted month lists -/

theorem mem_allMonths {df : List SavingsTx} {m : String} :
    m ∈ allMonths df ↔ m ∈ df.map (·.month) := by
  simp [allMonths, List.mem_dedup]

theorem allMonths_sorted (df : List SavingsTx) :
    (allMonths df).Sorted (· ≤ ·) :=
  List.sorted_insertionSort _ _

theorem allMonths_nodup (df : List SavingsTx) : (allMonths df).Nodup :=
  (List.perm_insertionSort _ _).nodup_iff.2 (List.nodup_dedup _)

theorem tx_month_mem_allMonths {df : List SavingsTx} {t : SavingsTx}
    (ht : t ∈ df) : t.month ∈ allMonths df :=
  mem_allMonths.2 (List.mem_map.2 ⟨t, ht, rfl⟩)

/-- Two sorted duplicate-free string lists with the same members are equal. -/
theorem sorted_nodup_ext {l₁ l₂ : List String}
    (s₁ : l₁.Sorted (· ≤ ·)) (s₂ : l₂.Sorted (· ≤ ·))
    (n₁ : l₁.Nodup) (n₂ : l₂.Nodup) (h : ∀ x, x ∈ l₁ ↔ x ∈ l₂) : l₁ = l₂ :=
  List.eq_of_perm_of_sorted ((List.perm_ext_iff_of_nodup n₁ n₂).2 h) s₁ s₂

/-- In a sorted duplicate-free list split as `l₁ ++ m :: l₂`, the items of
`l₁ ++ [m]` are exactly the members that are `≤ m`. -/
theorem mem_append_self_iff_le {l₁ l₂ : List String} {m x : String}
    (hs : (l₁ ++ m :: l₂).Sorted (· ≤ ·))
    (hn : (l₁ ++ m :: l₂).Nodup) :
    x ∈ l₁ ++ [m] ↔ x ∈ l₁ ++ m :: l₂ ∧ x ≤ m := by
  have hlt : (l₁ ++ m :: l₂).Sorted (· < ·) := hs.lt_of_le hn
  have hsplit := List.pairwise_append.1 hlt
  constructor
  · intro hx
    rcases List.mem_append.1 hx with h1 | h1
    · exact ⟨List.mem_append.2 (Or.inl h1),
        le_of_lt (hsplit.2.2 x h1 m (List.mem_cons_self m l₂))⟩
    · have hxm : x = m := by simpa using h1
      subst hxm
      exact ⟨List.mem_append.2 (Or.inr (List.mem_cons_self x l₂)), le_refl x⟩
  · rintro ⟨hx, hle⟩
    rcases List.mem_append.1 hx with h1 | h1
    · exact List.mem_append.2 (Or.inl h1)
    · rcases List.mem_cons.1 h1 with rfl | h2
      · exact List.mem_append.2 (Or.inr (List.mem_singleton.2 rfl))
      · exact absurd hle (not_le.2 (List.rel_of_pairwise_cons hsplit.2.1 h2))

/-! ### Sum bookkeeping lemmas -/

/-- Splitting a filtered sum along a pointwise-disjoint disjunction. -/
theorem sum_map_filter_or {α : Type} (f : α → Rat) (A B : α → Bool)
    (l : List α) (h : ∀ x, A x = true → B x = false) :
    ((l.filter (fun x => A x || B x)).map f).sum
      = ((l.filter A).map f).sum + ((l.filter B).map f).sum := by
  induction l with
  | nil => simp
  | cons x xs ih =>
    by_cases hA : A x = true
    · have hB := h x hA
      simp only [List.filter_cons, hA, hB, Bool.true_or, if_true, if_false,
        Bool.false_eq_true, List.map_cons, List.sum_cons, ih]
      ring
    · rw [Bool.not_eq_true] at hA
      by_cases hB : B x = true
      · simp only [List.filter_cons, hA, hB, Bool.false_or, if_true, if_false,
          Bool.false_eq_true, List.map_cons, List.sum_cons, ih]
        ring
      · rw [Bool.not_eq_true] at hB
        simp only [List.filter_cons, hA, hB, Bool.false_or, if_false,
          Bool.false_eq_true, ih]

/-- Unfolding the metrics loop: every produced row sits at a split
`ms = l₁ ++ row.Month :: l₂` of the month list and carries the three
running totals accumulated over `l₁ ++ [row.Month]`. -/
theorem metricsLoop_mem {df : List SavingsTx} :
    ∀ {ms : List String} {s a p : Rat} {row : MetricsRow},
      row ∈ metricsLoop df ms s a p →
      ∃ l₁ l₂, ms = l₁ ++ row.Month :: l₂ ∧
        row.TotalSavings = s + ((l₁ ++ [row.Month]).map (monthSavings df)).sum ∧
        row.TotalAllocated = a + ((l₁ ++ [row.Month]).map
          (fun m => monthAllocated df m - monthAllocatedWithdrawals df m)).sum ∧
        row.TotalSpent = p + ((l₁ ++ [row.Month]).map (monthSpent df)).sum := by
  intro ms
  induction ms with
  | nil => intro s a p row h; simp [metricsLoop] at h
  | cons m rest ih =>
    intro s a p row h
    rw [metricsLoop] at h
    rcases List.mem_cons.1 h with rfl | htail
    · exact ⟨[], rest, rfl, by simp, by simp; ring, by simp⟩
    · obtain ⟨l₁, l₂, hsplit, hs, ha, hp⟩ := ih htail
      refine ⟨m :: l₁, l₂, by rw [List.cons_append, hsplit], ?_, ?_, ?_⟩
      · rw [hs]; simp; ring
      · rw [ha]; simp; ring
      · rw [hp]; simp; ring

/-- Summing a per-month filtered total over a duplicate-free month list
equals one filtered sum over the whole transaction list. -/
theorem sum_months_filter (df : List SavingsTx) (Q : SavingsTx → Bool) :
    ∀ {ms : List String}, ms.Nodup →
      (ms.map (fun m => (((monthData df m).filter Q).map (·.value)).sum)).sum
        = ((df.filter (fun t => Q t && ms.contains t.month)).map (·.value)).sum := by
  intro ms
  induction ms with
  | nil => intro _; simp
  | cons m rest ih =>
    intro hn
    rw [List.nodup_cons] at hn
    rw [List.map_cons, List.sum_cons, ih hn.2]
    have hor : (fun t : SavingsTx => Q t && (m :: rest).contains t.month)
        = fun t => (Q t && t.month == m) || (Q t && rest.contains t.month) := by
      funext t
      rw [List.contains_cons]
      cases (t.month == m) <;> cases rest.contains t.month <;> cases Q t <;> rfl
    rw [hor, sum_map_filter_or]
    · rw [monthData, List.filter_filter]
    · intro t hA
      rw [Bool.and_eq_true] at hA
      have : t.month = m := by simpa using hA.2
      have hmem : t.month ∉ rest := this ▸ hn.1
      rw [hA.1, Bool.true_and, ← Bool.not_eq_true]
      intro hcon
      exact hmem (List.elem_iff.1 hcon)

/-- The prefix of the sorted month list accumulated into a metrics row
covers exactly the transactions of months `≤ row.Month`. -/
theorem filter_months_upTo {df : List SavingsTx} {l₁ l₂ : List String}
    {m : String} (Q : SavingsTx → Bool)
    (hsplit : allMonths df = l₁ ++ m :: l₂) :
    df.filter (fun t => Q t && (l₁ ++ [m]).contains t.month)
      = df.filter (fun t => Q t && decide (t.month ≤ m)) := by
  have hsorted := allMonths_sorted df
  have hnodup := allMonths_nodup df
  rw [hsplit] at hsorted hnodup
  apply List.filter_congr
  intro t ht
  have hcov : t.month ∈ allMonths df := tx_month_mem_allMonths ht
  rw [hsplit] at hcov
  have hiff : t.month ∈ l₁ ++ [m] ↔ t.month ≤ m := by
    rw [mem_append_self_iff_le hsorted hnodup]
    exact ⟨fun h => h.2, fun h => ⟨hcov, h⟩⟩
  cases hQ : Q t
  · rfl
  · simp only [Bool.true_and]
    rw [Bool.eq_iff_iff]
    simpa [List.elem_iff] using hiff

/-- The prefix `l₁ ++ [m]` of the sorted duplicate-free month list is
itself duplicate-free. -/
theorem nodup_months_upTo {df : List SavingsTx} {l₁ l₂ : List String}
    {m : String} (hsplit : allMonths df = l₁ ++ m :: l₂) :
    (l₁ ++ [m]).Nodup := by
  have hnodup := allMonths_nodup df
  rw [hsplit] at hnodup
  exact List.Nodup.sublist
    (List.Sublist.append_left (List.cons_sublist_cons.2 (List.nil_sublist l₂)) l₁)
    hnodup

/-- Consecutive rows of the metrics loop are linked by the three
per-month accrual rules. -/
theorem metricsLoop_chain (df : List SavingsTx) :
    ∀ (ms : List String) (s a p : Rat),
      (metricsLoop df ms s a p).Chain' (fun r r' =>
        r'.TotalSavings = r.TotalSavings + monthSavings df r'.Month ∧
        r'.TotalAllocated = r.TotalAllocated + monthAllocated df r'.Month
          - monthAllocatedWithdrawals df r'.Month ∧
        r'.TotalSpent = r.TotalSpent + monthSpent df r'.Month)
  | [], _, _, _ => List.chain'_nil
  | [m], s, a, p => by simp [metricsLoop]
  | m₁ :: m₂ :: ms, s, a, p => by
    have htail := metricsLoop_chain df (m₂ :: ms)
      (s + monthSavings df m₁)
      (a + monthAllocated df m₁ - monthAllocatedWithdrawals df m₁)
      (p + monthSpent df m₁)
    rw [metricsLoop]
    rw [metricsLoop] at htail ⊢
    exact List.chain'_cons.2 ⟨⟨rfl, rfl, rfl⟩, htail⟩

/-- The first row of the metrics loop carries the totals of its own month
added to the incoming state. -/
theorem metricsLoop_head {df : List SavingsTx} {m : String} {ms : List String}
    {s a p : Rat} {row : MetricsRow}
    (h : (metricsLoop df (m :: ms) s a p).head? = some row) :
    row = ⟨m, s + monthSavings df m,
      a + monthAllocated df m - monthAllocatedWithdrawals df m,
      p + monthSpent df m⟩ := by
  rw [metricsLoop] at h
  simpa using h.symm

/-- Each monthly savings contribution is a sum of strictly positive
values, hence nonnegative. -/
theorem monthSavings_nonneg (df : List SavingsTx) (m : String) :
    0 ≤ monthSavings df m := by
  apply List.sum_nonneg
  intro x hx
  unfold monthSavings at hx
  obtain ⟨t, ht, rfl⟩ := List.mem_map.1 hx
  have h2 := (List.mem_filter.1 ht).2
  rw [Bool.and_eq_true, decide_eq_true_eq] at h2
  exact le_of_lt h2.2

theorem monthSpent_nonneg (df : List SavingsTx) (m : String) :
    0 ≤ monthSpent df m :=
  abs_nonneg _

/-! ### Helper lemmas for the chart balance loops -/

theorem chartMonths_eq_allMonths (df_savings : List SavingsTx) :
    chartMonths df_savings = allMonths (risparmioData df_savings) := rfl

/-- Unfolding the snapshot loop: every stored snapshot sits at a split of
the month list and equals the fold of the per-month updates over the
months processed so far. -/
theorem monthlyBalances_mem {dfR : List SavingsTx} {cats : List String} :
    ∀ {ms : List String} {b0 : String → Rat} {m : String} {bal : String → Rat},
      (m, bal) ∈ monthlyBalances dfR cats ms b0 →
      ∃ l₁ l₂, ms = l₁ ++ m :: l₂ ∧
        bal = (l₁ ++ [m]).foldl (fun b mo => updateBalances dfR cats mo b) b0 := by
  intro ms
  induction ms with
  | nil => intro b0 m bal h; simp [monthlyBalances] at h
  | cons mo rest ih =>
    intro b0 m bal h
    rw [monthlyBalances] at h
    rcases List.mem_cons.1 h with heq | htail
    · cases heq
      exact ⟨[], rest, rfl, by simp⟩
    · obtain ⟨l₁, l₂, hsplit, hbal⟩ := ih htail
      exact ⟨mo :: l₁, l₂, by rw [List.cons_append, hsplit],
        by rw [hbal]; rfl⟩

/-- Evaluating the fold of balance updates at a category of the dict:
the guarded additions amount to adding the per-month net changes. -/
theorem foldl_updateBalances (dfR : List SavingsTx) (cats : List String)
    {c : String} (hc : c ∈ cats) :
    ∀ (ms : List String) (b0 : String → Rat),
      (ms.foldl (fun b mo => updateBalances dfR cats mo b) b0) c
        = b0 c + (ms.map (fun mo =>
            (((monthData dfR mo).filter (fun t => t.category == c)).map
              (·.value)).sum)).sum := by
  intro ms
  induction ms with
  | nil => intro b0; simp
  | cons mo rest ih =>
    intro b0
    rw [List.foldl_cons, ih, List.map_cons, List.sum_cons]
    have hstep : (updateBalances dfR cats mo b0) c
        = b0 c + (((monthData dfR mo).filter (fun t => t.category == c)).map
            (·.value)).sum := by
      rw [updateBalances]
      simp only [monthData]
      rw [if_pos (List.elem_iff.2 hc)]
      cases ((dfR.filter (fun t => t.month == mo)).filter
          (fun t => t.category == c)) <;> simp
    rw [hstep]
    ring

/-- A guarded sum over a possibly empty selection equals the plain sum. -/
theorem ite_isEmpty_sum {l : List SavingsTx} :
    (if l.isEmpty then (0 : Rat) else (l.map (·.value)).sum)
      = (l.map (·.value)).sum := by
  cases l <;> simp

/-- Restricting a `Risparmio`-frame filter by category and month bound is
the same as the one-pass filter of `specRunningBalance`. -/
theorem risparmio_filter_spec (df_savings : List SavingsTx) (c m : String) :
    (((risparmioData df_savings).filter
        (fun t => t.category == c && decide (t.month ≤ m))).map (·.value)).sum
      = specRunningBalance df_savings c m := by
  rw [specRunningBalance, risparmioData, List.filter_filter]
  refine congrArg _ (congrArg _ (List.filter_congr fun t _ => ?_))
  cases (t.categoryType == "Risparmio") <;> cases (t.category == c) <;>
    cases (decide (t.month ≤ m)) <;> rfl

/-- The snapshot stored by `create_savings_categories_over_time` for month
`m` evaluates, at each charted category, to the prefix sum of that
category over months `≤ m`. -/
theorem snapshot_balance_spec {df_savings : List SavingsTx} {c m : String}
    {bal : String → Rat} (hc : c ∈ chartCategories df_savings)
    (hmem : (m, bal) ∈ savingsOverTimeBalances df_savings) :
    bal c = specRunningBalance df_savings c m := by
  rw [savingsOverTimeBalances] at hmem
  obtain ⟨l₁, l₂, hsplit, hbal⟩ := monthlyBalances_mem hmem
  rw [hbal, foldl_updateBalances _ _ hc]
  rw [chartMonths_eq_allMonths] at hsplit
  rw [sum_months_filter (risparmioData df_savings) (fun t => t.category == c)
    (nodup_months_upTo hsplit)]
  rw [filter_months_upTo (fun t => t.category == c) hsplit]
  rw [risparmio_filter_spec]
  exact zero_add _

/-- The category balance computed by `create_category_savings_breakdown`
as of `end_month` is the same prefix sum. -/
theorem breakdown_balance_spec (df_savings : List SavingsTx)
    (end_month c : String) :
    breakdownCategoryBalance df_savings end_month c
      = specRunningBalance df_savings c end_month := by
  rw [breakdownCategoryBalance]
  rw [ite_isEmpty_sum]
  rw [show ((risparmioData df_savings).filter (fun t =>
      ((List.insertionSort (· ≤ ·)
          ((risparmioData df_savings).map (·.month)).dedup).filter
        (fun m => decide (m ≤ end_month))).contains t.month && t.category == c))
      = ((risparmioData df_savings).filter
          (fun t => t.category == c && decide (t.month ≤ end_month))) from ?_]
  · exact risparmio_filter_spec df_savings c end_month
  · apply List.filter_congr
    intro t ht
    have hcov : t.month ∈ allMonths (risparmioData df_savings) :=
      tx_month_mem_allMonths ht
    have hmem : ((allMonths (risparmioData df_savings)).filter
        (fun m => decide (m ≤ end_month))).contains t.month
          = decide (t.month ≤ end_month) := by
      rw [Bool.eq_iff_iff, List.elem_iff, List.mem_filter, decide_eq_true_eq]
      exact ⟨fun h => h.2, fun h => ⟨hcov, h⟩⟩
    rw [allMonths] at hmem
    rw [hmem]
    cases (t.category == c) <;> cases (decide (t.month ≤ end_month)) <;> rfl

/-! ### Helper lemmas about appending a zero-valued transaction -/

/-- Any filtered selection out of a singleton zero-valued transaction sums
to zero. -/
theorem filter_singleton_zero_sum {t : SavingsTx} (hv : t.value = 0)
    (P : SavingsTx → Bool) : (([t].filter P).map (·.value)).sum = 0 := by
  cases hp : P t <;> simp [List.filter, hp, hv]

/-- Appending a zero-valued transaction changes no monthly filtered sum. -/
theorem monthFilterSum_append_zero (df : List SavingsTx) {t : SavingsTx}
    (hv : t.value = 0) (Q : SavingsTx → Bool) (m : String) :
    (((monthData (df ++ [t]) m).filter Q).map (·.value)).sum
      = (((monthData df m).filter Q).map (·.value)).sum := by
  rw [monthData, monthData, List.filter_append, List.filter_append,
    List.map_append, List.sum_append, List.filter_filter, List.filter_filter,
    filter_singleton_zero_sum hv, add_zero]

theorem monthSavings_append_zero (df : List SavingsTx) {t : SavingsTx}
    (hv : t.value = 0) (m : String) :
    monthSavings (df ++ [t]) m = monthSavings df m :=
  monthFilterSum_append_zero df hv _ m

theorem monthAllocated_append_zero (df : List SavingsTx) {t : SavingsTx}
    (hv : t.value = 0) (m : String) :
    monthAllocated (df ++ [t]) m = monthAllocated df m :=
  monthFilterSum_append_zero df hv _ m

theorem monthAllocatedWithdrawals_append_zero (df : List SavingsTx)
    {t : SavingsTx} (hv : t.value = 0) (m : String) :
    monthAllocatedWithdrawals (df ++ [t]) m = monthAllocatedWithdrawals df m :=
  congrArg abs (monthFilterSum_append_zero df hv _ m)

theorem monthSpent_append_zero (df : List SavingsTx) {t : SavingsTx}
    (hv : t.value = 0) (m : String) :
    monthSpent (df ++ [t]) m = monthSpent df m :=
  congrArg abs (monthFilterSum_append_zero df hv _ m)

/-- Appending a zero-valued transaction changes no spec prefix balance. -/
theorem specRunningBalance_append_zero (df : List SavingsTx) {t : SavingsTx}
    (hv : t.value = 0) (c m : String) :
    specRunningBalance (df ++ [t]) c m = specRunningBalance df c m := by
  rw [specRunningBalance, specRunningBalance, List.filter_append,
    List.map_append, List.sum_append, filter_singleton_zero_sum hv, add_zero]

theorem specTotalSavedThrough_append_zero (df : List SavingsTx)
    {t : SavingsTx} (hv : t.value = 0) (m : String) :
    specTotalSavedThrough (df ++ [t]) m = specTotalSavedThrough df m := by
  rw [specTotalSavedThrough, specTotalSavedThrough, List.filter_append,
    List.map_append, List.sum_append, filter_singleton_zero_sum hv, add_zero]

/-- The metrics loop only looks at the frame through the four monthly
sums, so frames with the same monthly sums produce the same rows. -/
theorem metricsLoop_congr {df df' : List SavingsTx}
    (h : ∀ m, monthSavings df m = monthSavings df' m ∧
      monthAllocated df m = monthAllocated df' m ∧
      monthAllocatedWithdrawals df m = monthAllocatedWithdrawals df' m ∧
      monthSpent df m = monthSpent df' m) :
    ∀ (ms : List String) (s a p : Rat),
      metricsLoop df ms s a p = metricsLoop df' ms s a p := by
  intro ms
  induction ms with
  | nil => intro s a p; rfl
  | cons m rest ih =>
    intro s a p
    rw [metricsLoop, metricsLoop, (h m).1, (h m).2.1, (h m).2.2.1, (h m).2.2.2,
      ih]

/-- Appending a transaction of an already-present month leaves the sorted
unique month list unchanged. -/
theorem allMonths_append_of_mem {df : List SavingsTx} {t : SavingsTx}
    (h : t.month ∈ df.map (·.month)) : allMonths (df ++ [t]) = allMonths df := by
  refine sorted_nodup_ext (allMonths_sorted _) (allMonths_sorted _)
    (allMonths_nodup _) (allMonths_nodup _) (fun x => ?_)
  rw [mem_allMonths, mem_allMonths, List.map_append]
  constructor
  · intro hx
    rcases List.mem_append.1 hx with h1 | h1
    · exact h1
    · have : x = t.month := by simpa using h1
      exact this ▸ h
  · exact fun hx => List.mem_append.2 (Or.inl hx)

/-- Appending a zero-valued transaction whose month is already present
leaves the whole metrics frame unchanged. -/
theorem calculate_savings_metrics_append_zero {df : List SavingsTx}
    {t : SavingsTx} (hv : t.value = 0) (hm : t.month ∈ df.map (·.month)) :
    calculate_savings_metrics (df ++ [t]) = calculate_savings_metrics df := by
  have hne : df ≠ [] := by
    intro hnil
    rw [hnil] at hm
    simp at hm
  rw [calculate_savings_metrics, calculate_savings_metrics,
    if_neg (by simp), if_neg (by simp [hne])]
  rw [allMonths_append_of_mem hm]
  rw [metricsLoop_congr (fun m => ⟨monthSavings_append_zero df hv m,
    monthAllocated_append_zero df hv m,
    monthAllocatedWithdrawals_append_zero df hv m,
    monthSpent_append_zero df hv m⟩) (allMonths df) 0 0 0]

/-! ### Concrete evaluations of the spec scenario -/

theorem scenarioRows_eval :
    (calculate_savings_metrics scenarioLog).rows =
      [⟨"2024-01", 0, 100, 40⟩, ⟨"2024-02", 20, 70, 40⟩] := by
  simp [calculate_savings_metrics, scenarioLog, allMonths, List.insertionSort,
    List.orderedInsert, List.dedup, List.pwFilter, metricsLoop, monthSavings,
    monthAllocated, monthAllocatedWithdrawals, monthSpent, monthData,
    metricsSchemaCols]
  norm_num

theorem scenarioChartCategories_eval :
    chartCategories scenarioLog = ["Vacation"] := by
  simp [chartCategories, risparmioData, scenarioLog, List.insertionSort,
    List.orderedInsert, List.dedup, List.pwFilter, List.filter]

theorem scenarioChartMonths_eval :
    chartMonths scenarioLog = ["2024-02"] := by
  simp [chartMonths, risparmioData, scenarioLog, List.insertionSort,
    List.orderedInsert, List.dedup, List.pwFilter, List.filter]

/-! ### Helper lemma for the validation loop -/

/-- On inputs whose `Value` cells are all non-null, the validation loop
returns all passing records in order and one error string per failing
row. -/
theorem validateSavingsLoop_spec :
    ∀ (rows : List RawSavingsRow) (acc : List SavingsRecordV)
      (errs : List String), (∀ r ∈ rows, r.Value.isSome) →
      validateSavingsLoop rows acc errs
        = Except.ok (acc ++ rows.filterMap rowRecord,
            errs ++ (rows.filter (fun r => !(pydanticValid r))).map
              (fun _ => "Row validation error")) := by
  intro rows
  induction rows with
  | nil => intro acc errs _; simp [validateSavingsLoop]
  | cons r rest ih =>
    intro acc errs h
    have hr := h r (List.mem_cons_self r rest)
    obtain ⟨v, hv⟩ := Option.isSome_iff_exists.1 hr
    have hrest : ∀ x ∈ rest, x.Value.isSome :=
      fun x hx => h x (List.mem_cons_of_mem r hx)
    rw [validateSavingsLoop, hv]
    rcases r with ⟨d, desc, c, ct, rv⟩
    cases d <;> cases desc <;> cases c <;> cases ct <;>
      simp_all [pyFloat, buildSavingsRecord, rowRecord, pydanticValid,
        ih _ _ hrest, List.filterMap_cons, List.filter_cons]

/-! ### Claim theorems -/

/-- C1: on the four-transaction scenario log, `calculate_savings_metrics`
returns exactly two monthly rows, Jan with totals (saved 0, allocated 100,
spent 40) and Feb with totals (saved 20, allocated 70, spent 40). -/
theorem claim1_scenario_metrics :
    (calculate_savings_metrics scenarioLog).rows =
      [⟨"2024-01", 0, 100, 40⟩, ⟨"2024-02", 20, 70, 40⟩] :=
  scenarioRows_eval

/-- C5 counterexample: the classifier of Process.py 464-469 maps an
unrecognized category type to the label `Savings`, not to `Other`; the
claim that every tag other than the two reserved ones maps to `Other` is
false. -/
theorem claim5_counterexample :
    allocationTypeOf "Bonifico" = "Savings" ∧
      allocationTypeOf "Bonifico" ≠ "Other" := by
  constructor
  · rfl
  · intro h
    exact absurd h (by decide)

/-- C5 amended: the classifier derives exactly one of two labels,
`Allocation` for the configured allocation tag and `Savings` for every
other tag, the savings tag and unrecognized tags alike; no input is
rejected. -/
theorem claim5_two_label_classifier :
    ∀ categoryType : String,
      (allocationTypeOf categoryType = "Allocation" ∨
        allocationTypeOf categoryType = "Savings") ∧
      (allocationTypeOf categoryType = "Allocation" ↔
        categoryType = "Accantonamento") ∧
      (categoryType ≠ "Accantonamento" →
        allocationTypeOf categoryType = "Savings") := by
  intro ct
  by_cases h : ct = "Accantonamento"
  · rw [allocationTypeOf, if_pos h]
    exact ⟨Or.inl rfl, ⟨fun _ => h, fun _ => rfl⟩, fun hn => absurd h hn⟩
  · rw [allocationTypeOf, if_neg h]
    exact ⟨Or.inr rfl, ⟨fun he => absurd he (by decide), fun hc => absurd hc h⟩,
      fun _ => rfl⟩

/-- C5 witness: the amended classifier behaviour at the two reserved tags. -/
theorem claim5_witness :
    allocationTypeOf "Accantonamento" = "Allocation" ∧
      allocationTypeOf "Risparmio" = "Savings" :=
  ⟨(claim5_two_label_classifier "Accantonamento").2.1.mpr rfl,
   (claim5_two_label_classifier "Risparmio").2.2 (by decide)⟩

/-- C7: along the metrics rows (ordered by month), `TotalSavings` and
`TotalSpent` are non-decreasing. -/
theorem claim7_monotone_saved_spent (df_savings : List SavingsTx) :
    (calculate_savings_metrics df_savings).rows.Pairwise (fun r r' =>
      r.TotalSavings ≤ r'.TotalSavings ∧ r.TotalSpent ≤ r'.TotalSpent) := by
  haveI : IsTrans MetricsRow (fun r r' =>
      r.TotalSavings ≤ r'.TotalSavings ∧ r.TotalSpent ≤ r'.TotalSpent) :=
    ⟨fun _ _ _ h1 h2 => ⟨h1.1.trans h2.1, h1.2.trans h2.2⟩⟩
  rw [← List.chain'_iff_pairwise]
  have hch := metricsLoop_chain df_savings (allMonths df_savings) 0 0 0
  rw [calculate_savings_metrics]
  by_cases hE : df_savings.isEmpty = true
  · rw [if_pos hE]
    exact List.chain'_nil
  · rw [if_neg hE]
    refine hch.imp (fun {r r'} h => ?_)
    exact ⟨h.1 ▸ le_add_of_nonneg_right (monthSavings_nonneg df_savings r'.Month),
      h.2.2 ▸ le_add_of_nonneg_right (monthSpent_nonneg df_savings r'.Month)⟩

/-- C9: zero transactions are not an error: the engine returns the empty
metrics table carrying the same four columns (in the same order and, by
the result type, the same cell types) as every non-empty run. -/
theorem claim9_empty_input_schema :
    calculate_savings_metrics [] =
      ⟨["Month", "TotalSavings", "TotalAllocated", "TotalSpent"], []⟩ ∧
    ∀ df_savings : List SavingsTx,
      (calculate_savings_metrics df_savings).cols =
        ["Month", "TotalSavings", "TotalAllocated", "TotalSpent"] := by
  refine ⟨rfl, fun df_savings => ?_⟩
  rw [calculate_savings_metrics]
  by_cases hE : df_savings.isEmpty = true
  · rw [if_pos hE]
    rfl
  · rw [if_neg hE]
    rfl


/-- C2: every metrics row reports as `TotalSavings` the sum, over all
months up to and including its own, of the strictly positive
`Risparmio`-type transaction values; negative `Risparmio` values are
invisible to it. -/
theorem claim2_totalSavings_closed_form (df_savings : List SavingsTx)
    (row : MetricsRow) (h : row ∈ (calculate_savings_metrics df_savings).rows) :
    row.TotalSavings = specTotalSavedThrough df_savings row.Month := by
  rw [calculate_savings_metrics] at h
  by_cases hE : df_savings.isEmpty = true
  · rw [if_pos hE] at h
    simp at h
  · rw [if_neg hE] at h
    obtain ⟨l₁, l₂, hsplit, hs, _, _⟩ := metricsLoop_mem h
    rw [hs, zero_add]
    have h2 : ((l₁ ++ [row.Month]).map (monthSavings df_savings)).sum
        = ((l₁ ++ [row.Month]).map (fun m => (((monthData df_savings m).filter
            (fun t => t.categoryType == "Risparmio" && decide (0 < t.value))).map
          (·.value)).sum)).sum := rfl
    rw [h2, sum_months_filter df_savings _ (nodup_months_upTo hsplit),
      filter_months_upTo _ hsplit, specTotalSavedThrough]
    refine congrArg _ (congrArg _ (List.filter_congr fun t _ => ?_))
    cases (t.categoryType == "Risparmio") <;> cases (decide (0 < t.value)) <;>
      cases (decide (t.month ≤ row.Month)) <;> rfl

/-- C2 witness: the Feb row of the scenario log. -/
theorem claim2_witness :
    (⟨"2024-02", 20, 70, 40⟩ : MetricsRow).TotalSavings
      = specTotalSavedThrough scenarioLog "2024-02" := by
  have hmem : (⟨"2024-02", 20, 70, 40⟩ : MetricsRow)
      ∈ (calculate_savings_metrics scenarioLog).rows := by
    rw [scenarioRows_eval]
    simp
  exact claim2_totalSavings_closed_form scenarioLog _ hmem

/-- C3: each row reports as `TotalAllocated` the previous value (0 before
the first month) plus the sum of positive Allocation-type values of its
month minus the absolute value of the sum of the negative ones. -/
theorem claim3_totalAllocated_recurrence (df_savings : List SavingsTx) :
    (∀ row, (calculate_savings_metrics df_savings).rows.head? = some row →
      row.TotalAllocated = 0 + monthAllocated df_savings row.Month
        - monthAllocatedWithdrawals df_savings row.Month) ∧
    (calculate_savings_metrics df_savings).rows.Chain' (fun r r' =>
      r'.TotalAllocated = r.TotalAllocated + monthAllocated df_savings r'.Month
        - monthAllocatedWithdrawals df_savings r'.Month) := by
  constructor
  · intro row h
    rw [calculate_savings_metrics] at h
    by_cases hE : df_savings.isEmpty = true
    · rw [if_pos hE] at h
      simp at h
    · rw [if_neg hE] at h
      rcases hM : allMonths df_savings with _ | ⟨m, ms⟩
      · rw [hM, metricsLoop] at h
        simp at h
      · rw [hM] at h
        have := metricsLoop_head h
        subst this
        rfl
  · have hch := metricsLoop_chain df_savings (allMonths df_savings) 0 0 0
    rw [calculate_savings_metrics]
    by_cases hE : df_savings.isEmpty = true
    · rw [if_pos hE]
      exact List.chain'_nil
    · rw [if_neg hE]
      exact hch.imp (fun {r r'} h => h.2.1)

/-- C3 witness: head and step of the recurrence on the scenario log. -/
theorem claim3_witness :
    (⟨"2024-01", 0, 100, 40⟩ : MetricsRow).TotalAllocated
        = 0 + monthAllocated scenarioLog "2024-01"
          - monthAllocatedWithdrawals scenarioLog "2024-01" ∧
    (⟨"2024-02", 20, 70, 40⟩ : MetricsRow).TotalAllocated
        = (⟨"2024-01", 0, 100, 40⟩ : MetricsRow).TotalAllocated
          + monthAllocated scenarioLog "2024-02"
          - monthAllocatedWithdrawals scenarioLog "2024-02" := by
  have h := claim3_totalAllocated_recurrence scenarioLog
  have hrows := scenarioRows_eval
  constructor
  · refine h.1 _ ?_
    rw [hrows]
    rfl
  · have hch := h.2
    rw [hrows] at hch
    exact (List.chain'_cons.1 hch).1

/-- C4: each row reports as `TotalSpent` the previous value (0 before the
first month) plus the absolute value of the sum of the negative
non-Allocation-type values; an unrecognized category type passes the
`!= Accantonamento` filter, so its outflows count toward `TotalSpent`. -/
theorem claim4_totalSpent_recurrence (df_savings : List SavingsTx) :
    (∀ row, (calculate_savings_metrics df_savings).rows.head? = some row →
      row.TotalSpent = 0 + monthSpent df_savings row.Month) ∧
    (calculate_savings_metrics df_savings).rows.Chain' (fun r r' =>
      r'.TotalSpent = r.TotalSpent + monthSpent df_savings r'.Month) := by
  constructor
  · intro row h
    rw [calculate_savings_metrics] at h
    by_cases hE : df_savings.isEmpty = true
    · rw [if_pos hE] at h
      simp at h
    · rw [if_neg hE] at h
      rcases hM : allMonths df_savings with _ | ⟨m, ms⟩
      · rw [hM, metricsLoop] at h
        simp at h
      · rw [hM] at h
        have := metricsLoop_head h
        subst this
        rfl
  · have hch := metricsLoop_chain df_savings (allMonths df_savings) 0 0 0
    rw [calculate_savings_metrics]
    by_cases hE : df_savings.isEmpty = true
    · rw [if_pos hE]
      exact List.chain'_nil
    · rw [if_neg hE]
      exact hch.imp (fun {r r'} h => h.2.2)

/-- C4 witness: head and step of the spending recurrence on the scenario
log. -/
theorem claim4_witness :
    (⟨"2024-01", 0, 100, 40⟩ : MetricsRow).TotalSpent
        = 0 + monthSpent scenarioLog "2024-01" ∧
    (⟨"2024-02", 20, 70, 40⟩ : MetricsRow).TotalSpent
        = (⟨"2024-01", 0, 100, 40⟩ : MetricsRow).TotalSpent
          + monthSpent scenarioLog "2024-02" := by
  have h := claim4_totalSpent_recurrence scenarioLog
  have hrows := scenarioRows_eval
  constructor
  · refine h.1 _ ?_
    rw [hrows]
    rfl
  · have hch := h.2
    rw [hrows] at hch
    exact (List.chain'_cons.1 hch).1

/-- C6: the running balance the charts compute for a charted category at
any emitted month is exactly the prefix sum of that category over the
months `≤` it (`Risparmio` keys, the only keys the charts compute), and
likewise for the end-month balance of the breakdown chart; the right-hand
side depends only on the transactions of that single key. -/
theorem claim6_running_balance_prefix_sum (df_savings : List SavingsTx) :
    (∀ c m bal, c ∈ chartCategories df_savings →
      (m, bal) ∈ savingsOverTimeBalances df_savings →
      bal c = specRunningBalance df_savings c m) ∧
    (∀ end_month c, breakdownCategoryBalance df_savings end_month c
      = specRunningBalance df_savings c end_month) :=
  ⟨fun _ _ _ hc hmem => snapshot_balance_spec hc hmem,
   fun end_month c => breakdown_balance_spec df_savings end_month c⟩

/-- C6 witness: the snapshot of the scenario log at its only `Risparmio`
month, evaluated at its only charted category. -/
theorem claim6_witness :
    updateBalances (risparmioData scenarioLog) (chartCategories scenarioLog)
        "2024-02" (fun _ => 0) "Vacation"
      = specRunningBalance scenarioLog "Vacation" "2024-02" := by
  refine (claim6_running_balance_prefix_sum scenarioLog).1 "Vacation"
    "2024-02" _ ?_ ?_
  · rw [scenarioChartCategories_eval]
    simp
  · rw [savingsOverTimeBalances, scenarioChartMonths_eval, monthlyBalances]
    exact List.mem_cons_self _ _

/-- C8 counterexample: inserting a zero-valued transaction into the empty
log changes the metrics output (a new monthly row appears), so the
insertion does not leave the metrics rows unchanged for every log. -/
theorem claim8_counterexample :
    (calculate_savings_metrics
        ([] ++ [⟨"2024-01", "Vacation", "Risparmio", 0⟩])).rows
      ≠ (calculate_savings_metrics ([] : List SavingsTx)).rows := by
  simp [calculate_savings_metrics, allMonths, metricsLoop,
    List.insertionSort, List.orderedInsert, List.dedup]

/-- C8 amended: a zero-valued transaction never changes any per-category
prefix balance, any breakdown balance, any monthly metric contribution or
any cumulative saved total, and when its month already occurs in the log
the whole metrics frame is unchanged; only a zero transaction in a fresh
month alters the output, by adding a row for that month. -/
theorem claim8_zero_tx_invariance (df_savings : List SavingsTx)
    (t : SavingsTx) (hv : t.value = 0) :
    (∀ c m, specRunningBalance (df_savings ++ [t]) c m
      = specRunningBalance df_savings c m) ∧
    (∀ end_month c, breakdownCategoryBalance (df_savings ++ [t]) end_month c
      = breakdownCategoryBalance df_savings end_month c) ∧
    (∀ m, monthSavings (df_savings ++ [t]) m = monthSavings df_savings m ∧
      monthAllocated (df_savings ++ [t]) m = monthAllocated df_savings m ∧
      monthAllocatedWithdrawals (df_savings ++ [t]) m
        = monthAllocatedWithdrawals df_savings m ∧
      monthSpent (df_savings ++ [t]) m = monthSpent df_savings m) ∧
    (∀ m, specTotalSavedThrough (df_savings ++ [t]) m
      = specTotalSavedThrough df_savings m) ∧
    (t.month ∈ df_savings.map (·.month) →
      calculate_savings_metrics (df_savings ++ [t])
        = calculate_savings_metrics df_savings) :=
  ⟨fun c m => specRunningBalance_append_zero df_savings hv c m,
   fun end_month c => by
     rw [breakdown_balance_spec, breakdown_balance_spec,
       specRunningBalance_append_zero df_savings hv],
   fun m => ⟨monthSavings_append_zero df_savings hv m,
     monthAllocated_append_zero df_savings hv m,
     monthAllocatedWithdrawals_append_zero df_savings hv m,
     monthSpent_append_zero df_savings hv m⟩,
   fun m => specTotalSavedThrough_append_zero df_savings hv m,
   fun hm => calculate_savings_metrics_append_zero hv hm⟩

/-- C8 witness: a zero transaction in an already-present month of the
scenario log leaves the metrics frame and a prefix balance unchanged. -/
theorem claim8_witness :
    calculate_savings_metrics
        (scenarioLog ++ [⟨"2024-01", "Vacation", "Risparmio", 0⟩])
      = calculate_savings_metrics scenarioLog ∧
    specRunningBalance
        (scenarioLog ++ [⟨"2024-01", "Vacation", "Risparmio", 0⟩])
        "Vacation" "2024-02"
      = specRunningBalance scenarioLog "Vacation" "2024-02" := by
  have h := claim8_zero_tx_invariance scenarioLog
    ⟨"2024-01", "Vacation", "Risparmio", 0⟩ rfl
  exact ⟨h.2.2.2.2 (by decide), h.1 "Vacation" "2024-02"⟩

/-- C10 counterexample: a record whose `Value` cell is null fails the
savings schema, yet `validate_savings` raises (the `float` conversion
error is not caught) instead of skipping the record and recording an
error string. -/
theorem claim10_counterexample :
    validate_savings [⟨some 0, some "d", some "c", some "t", none⟩]
      = Except.error "TypeError" := rfl

/-- C10 amended: on rows whose `Value` cells are all convertible,
`validate_savings` never raises: it returns every pydantic-valid record,
one error string per failing record, and, when every record fails, the
completely empty frame (zero rows and zero columns) rather than an empty
frame carrying the savings schema; a null `Value`, however, raises an
uncaught `TypeError`. -/
theorem claim10_validate_savings_behaviour :
    ∀ rows : List RawSavingsRow, (∀ r ∈ rows, r.Value.isSome) →
      validate_savings rows = Except.ok
        (⟨if (rows.filterMap rowRecord).isEmpty then []
            else savingsSchemaCols, rows.filterMap rowRecord⟩,
         (rows.filter (fun r => !(pydanticValid r))).map
           (fun _ => "Row validation error")) := by
  intro rows h
  simp only [validate_savings, validateSavingsLoop_spec rows [] [] h,
    List.nil_append]
  by_cases hX : (rows.filterMap rowRecord).isEmpty = true
  · rw [if_pos hX, if_pos hX, List.isEmpty_iff.1 hX]
  · rw [if_neg hX, if_neg hX]

/-- C10 witness: one valid and one pydantic-failing record, with
convertible values. -/
theorem claim10_witness :
    validate_savings
        [⟨some 1, some "d", some "c", some "Risparmio", some 5⟩,
         ⟨none, some "e", some "f", some "g", some 3⟩]
      = Except.ok (⟨savingsSchemaCols, [⟨1, "d", "c", "Risparmio", 5⟩]⟩,
          ["Row validation error"]) := by
  rw [claim10_validate_savings_behaviour
    [⟨some 1, some "d", some "c", some "Risparmio", some 5⟩,
     ⟨none, some "e", some "f", some "g", some 3⟩] (by decide)]
  rfl
